import Mathlib

/-!
Shallow embedding of the incident.io → Jira webhook relay
(`incident-jira-webhook.go`).  Pure helpers are translated as Lean
functions.  The two outbound HTTP interactions (catalog lookup and issue
update) are modelled by an environment of response oracles, and every
modelled function returns, next to its result, the ordered list of
upstream calls it made, so that call-count and call-order properties can
be stated.  Go's `string` is modelled as `String`, `error` results as
`Except String`, and `strconv.Atoi`'s 64-bit signed range explicitly.
-/

namespace IncidentJiraWebhook

/-- Mirrors the Go `Config` struct (all fields are strings read from the
environment at startup). -/
structure Config where
  jiraBaseURL : String
  jiraUsername : String
  jiraAPIToken : String
  incidentAPIToken : String
  webhookSecret : String
  port : String
  jiraWorkspaceID : String
  impactedComponentFieldName : String
  impactedComponentJiraFieldID : String
  responsibleComponentFieldName : String
  responsibleComponentJiraFieldID : String
deriving DecidableEq

/-- Mirrors `FieldMapping`. -/
structure FieldMapping where
  incidentFieldName : String
  jiraFieldID : String
deriving DecidableEq

/-- Entry of `getFieldMappings()` under the key "impacted_components". -/
def impactedMapping (cfg : Config) : FieldMapping :=
  { incidentFieldName := cfg.impactedComponentFieldName
    jiraFieldID := cfg.impactedComponentJiraFieldID }

/-- Entry of `getFieldMappings()` under the key "responsible_components". -/
def responsibleMapping (cfg : Config) : FieldMapping :=
  { incidentFieldName := cfg.responsibleComponentFieldName
    jiraFieldID := cfg.responsibleComponentJiraFieldID }

/-- Mirrors `ExternalIssueReference`. -/
structure ExternalIssueReference where
  provider : String
  issueName : String
  issuePermalink : String
deriving DecidableEq

/-- Mirrors `CatalogEntry` (the reference carried inside a custom-field
value). -/
structure CatalogEntry where
  id : String
  name : String
  externalID : String
deriving DecidableEq

/-- Mirrors `Value`: an optional catalog-entry reference. -/
structure Value where
  valueCatalogEntry : Option CatalogEntry
deriving DecidableEq

/-- Mirrors `CustomField`. -/
structure CustomField where
  id : String
  name : String
  description : String
  fieldType : String
deriving DecidableEq

/-- Mirrors `CustomFieldEntry`. -/
structure CustomFieldEntry where
  customField : CustomField
  values : List Value
deriving DecidableEq

/-- Mirrors the anonymous incident struct (shared shape of
`IncidentData.Incident` and `IncidentData.PublicIncidentUpdatedV2`). -/
structure IncidentBody where
  id : String
  name : String
  externalIssueReference : ExternalIssueReference
  customFieldEntries : List CustomFieldEntry
deriving DecidableEq

/-- Mirrors `IncidentData`, the decoded webhook payload. -/
structure IncidentData where
  incident : IncidentBody
  publicIncidentUpdatedV2 : IncidentBody
  eventType : String
deriving DecidableEq

/-- Mirrors `AttributeValue.Value` (holds the literal string). -/
structure AttributeValueInner where
  literal : String
deriving DecidableEq

/-- Mirrors `AttributeValue`. -/
structure AttributeValue where
  value : AttributeValueInner
deriving DecidableEq

/-- Mirrors one element of `CatalogResponse.CatalogType.Schema.Attributes`. -/
structure SchemaAttribute where
  id : String
  name : String
deriving DecidableEq

/-- Mirrors `CatalogResponse.CatalogEntry`; the Go
`map[string]AttributeValue` is modelled as an association list with
`List.lookup` (keys are unique after JSON decoding). -/
structure CatalogResponseEntry where
  id : String
  name : String
  externalID : String
  attributeValues : List (String × AttributeValue)
deriving DecidableEq

/-- Mirrors `CatalogResponse.CatalogType.Schema`. -/
structure CatalogSchema where
  attributes : List SchemaAttribute
deriving DecidableEq

/-- Mirrors `CatalogResponse.CatalogType`. -/
structure CatalogType where
  schema : CatalogSchema
deriving DecidableEq

/-- Mirrors `CatalogResponse`. -/
structure CatalogResponse where
  catalogEntry : CatalogResponseEntry
  catalogType : CatalogType
deriving DecidableEq

/-- Mirrors `JiraComponentValue` (`id` / `objectId` fields of the JSON
sent to Jira). -/
structure JiraComponentValue where
  id : String
  objectID : String
deriving DecidableEq

/-- Outcome of the catalog `GET`: a transport error, or an HTTP response
with a status code and (for 200) an optionally-decodable body (`none`
models a JSON decode failure). -/
inductive CatalogFetchResult where
  | transportError (msg : String)
  | response (status : Nat) (body : Option CatalogResponse)
deriving DecidableEq

/-- Outcome of the Jira `PUT`: a transport error or an HTTP status. -/
inductive JiraPutResult where
  | transportError (msg : String)
  | status (code : Nat)
deriving DecidableEq

/-- One upstream call, recorded in order of occurrence. -/
inductive Call where
  | catalogGet (entryId : String)
  | jiraPut (issueKey : String) (fieldID : String) (values : List JiraComponentValue)
deriving DecidableEq

/-- True exactly on issue-update (write) calls. -/
def isJiraPut : Call → Bool
  | Call.jiraPut _ _ _ => true
  | _ => false

/-- Response oracles for the two upstream services; deterministic in the
request arguments. -/
structure Env where
  catalog : String → CatalogFetchResult
  jira : String → String → List JiraComponentValue → JiraPutResult

/-- ASCII-lowercasing, modelling `strings.ToLower` (the compared-against
constant "object key" is ASCII). -/
def lowerStr (s : String) : String :=
  String.mk (s.data.map Char.toLower)

/-- Decimal digit test; Go's regexp `\d` and `strconv` digits are ASCII. -/
def isDigitCh (c : Char) : Bool :=
  ('0' ≤ c) && (c ≤ '9')

/-- Leftmost match of the anchored regexp `-(\d+)$` used by
`extractJiraObjectID`, returning the captured group.  RE2 semantics: a
match starting at a given `'-'` requires every following character to be
a digit (the greedy `\d+` must reach `$`), and the leftmost such start
wins; this is exactly the first position whose tail is `'-'` followed by
a non-empty all-digit run ending the string. -/
def reFindHyphenDigits : List Char → Option (List Char)
  | [] => none
  | c :: rest =>
    if c = '-' ∧ rest ≠ [] ∧ rest.all isDigitCh = true then some rest
    else reFindHyphenDigits rest

/-- Value of an all-digit character list read in base 10. -/
def decDigitsVal (l : List Char) : Nat :=
  l.foldl (fun a c => a * 10 + (c.toNat - 48)) 0

/-- Models Go `strconv.Atoi` succeeding: an optional single sign followed
by one or more decimal digits, with the value inside the signed 64-bit
range (`Atoi` is `ParseInt(s, 10, 0)` on a 64-bit platform). -/
def atoiAccepts (s : String) : Bool :=
  match s.data with
  | [] => false
  | '+' :: rest =>
    (!rest.isEmpty) && rest.all isDigitCh && decide (decDigitsVal rest ≤ 9223372036854775807)
  | '-' :: rest =>
    (!rest.isEmpty) && rest.all isDigitCh && decide (decDigitsVal rest ≤ 9223372036854775808)
  | l => l.all isDigitCh && decide (decDigitsVal l ≤ 9223372036854775807)

/-- Mirrors `extractJiraObjectID`: reject the empty string; else return
the group captured by `-(\d+)$` if it matches; else return the string
unchanged if `strconv.Atoi` accepts it; else fail. -/
def extractJiraObjectID (objectKey : String) : Except String String :=
  if objectKey = "" then Except.error "empty object key"
  else
    match reFindHyphenDigits objectKey.data with
    | some g => Except.ok (String.mk g)
    | none =>
      if atoiAccepts objectKey = true then Except.ok objectKey
      else Except.error ("could not extract numeric ID from object key: " ++ objectKey)

/-- Mirrors `formatJiraComponentValue` (`fmt.Sprintf` with format
`%s:%s` is string concatenation with a colon); the `catalogEntryID`
parameter is accepted and unused, as in the source. -/
def formatJiraComponentValue (cfg : Config) (objectID : String) (catalogEntryID : String) :
    JiraComponentValue :=
  { id := cfg.jiraWorkspaceID ++ ":" ++ objectID, objectID := objectID }

/-- Mirrors the attribute scan in `getCatalogEntryObjectKey`: the id of
the first schema attribute whose lowercased name is "object key", or the
zero value `""` when none matches (the loop breaks on the first match). -/
def findObjectKeyAttrID : List SchemaAttribute → String
  | [] => ""
  | a :: rest =>
    if lowerStr a.name = "object key" then a.id else findObjectKeyAttrID rest

/-- Mirrors `getCatalogEntryObjectKey`: one catalog `GET` per call;
transport errors, non-200 statuses and decode failures are errors; on a
decoded 200 body, succeed with the literal stored under the first
"object key" attribute's id when that id is non-empty and present in
`attribute_values`, else fail with the "no object key found" error. -/
def getCatalogEntryObjectKey (env : Env) (catalogEntryID : String) :
    Except String String × List Call :=
  (match env.catalog catalogEntryID with
   | CatalogFetchResult.transportError m =>
     Except.error ("failed to fetch catalog entry: " ++ m)
   | CatalogFetchResult.response st body =>
     if st ≠ 200 then Except.error ("API request failed with status: " ++ toString st)
     else
       match body with
       | none => Except.error "failed to decode response"
       | some catalogResp =>
         let objectKeyAttrID := findObjectKeyAttrID catalogResp.catalogType.schema.attributes
         if objectKeyAttrID ≠ "" then
           match catalogResp.catalogEntry.attributeValues.lookup objectKeyAttrID with
           | some attrValue => Except.ok attrValue.value.literal
           | none =>
             Except.error ("no object key found for catalog entry " ++ catalogEntryID)
         else
           Except.error ("no object key found for catalog entry " ++ catalogEntryID),
   [Call.catalogGet catalogEntryID])

/-- Mirrors `updateJiraCustomField`: one `PUT` per call; success exactly
on HTTP 204 or 200 (the Go condition `!= StatusNoContent && != StatusOK
&& != 204` repeats 204). -/
def updateJiraCustomField (env : Env) (jiraIssueKey : String) (fieldID : String)
    (values : List JiraComponentValue) : Except String Unit × List Call :=
  (match env.jira jiraIssueKey fieldID values with
   | JiraPutResult.transportError m =>
     Except.error ("failed to update Jira field: " ++ m)
   | JiraPutResult.status code =>
     if code ≠ 204 ∧ code ≠ 200 then
       Except.error ("Jira API request failed with status: " ++ toString code)
     else Except.ok (),
   [Call.jiraPut jiraIssueKey fieldID values])

/-- One iteration of the value loop in `processComponentField`: values
without a catalog entry, or with an empty catalog-entry id, are skipped
with no upstream call; otherwise the catalog is consulted and a failed
lookup or extraction drops the value (`continue`), while success formats
it for the batch. -/
def resolveOneValue (env : Env) (cfg : Config) (value : Value) :
    Option JiraComponentValue × List Call :=
  match value.valueCatalogEntry with
  | none => (none, [])
  | some catalogEntry =>
    if catalogEntry.id = "" then (none, [])
    else
      let r := getCatalogEntryObjectKey env catalogEntry.id
      match r.1 with
      | Except.error _ => (none, r.2)
      | Except.ok objectKey =>
        match extractJiraObjectID objectKey with
        | Except.error _ => (none, r.2)
        | Except.ok objectID =>
          (some (formatJiraComponentValue cfg objectID catalogEntry.id), r.2)

/-- The value loop of `processComponentField`: builds `jiraValues` in
submission order, concatenating the per-value call traces. -/
def collectJiraValues (env : Env) (cfg : Config) : List Value → List JiraComponentValue × List Call
  | [] => ([], [])
  | v :: rest =>
    let r := resolveOneValue env cfg v
    let w := collectJiraValues env cfg rest
    (match r.1 with
     | some jv => jv :: w.1
     | none => w.1,
     r.2 ++ w.2)

/-- The write stage of `processComponentField` (lines after the value
loop): no write when the batch is empty; otherwise one write with the
full batch, and — only when that fails and the batch has more than one
value — a single retry with the first value whose result is returned. -/
def writeWithFallback (env : Env) (jiraIssueKey : String) (fieldID : String) :
    List JiraComponentValue → Except String Unit × List Call
  | [] => (Except.ok (), [])
  | v0 :: restVs =>
    let r1 := updateJiraCustomField env jiraIssueKey fieldID (v0 :: restVs)
    match r1.1, restVs with
    | Except.error _, _ :: _ =>
      let r2 := updateJiraCustomField env jiraIssueKey fieldID [v0]
      (r2.1, r1.2 ++ r2.2)
    | r, _ => (r, r1.2)

/-- Mirrors `processComponentField`: resolve the field's values, then
apply the write-with-fallback stage to the collected batch. -/
def processComponentField (env : Env) (cfg : Config) (customFieldEntry : CustomFieldEntry)
    (jiraIssueKey : String) (fieldMapping : FieldMapping) : Except String Unit × List Call :=
  let c := collectJiraValues env cfg customFieldEntry.values
  let w := writeWithFallback env jiraIssueKey fieldMapping.jiraFieldID c.1
  (w.1, c.2 ++ w.2)

/-- One iteration of the entry loop in `processIncidentUpdate`: an entry
whose field name equals the impacted-components mapping's name is
processed first (an error aborts the whole event); then, independently,
an entry whose name equals the responsible-components mapping's name. -/
def processFieldEntry (env : Env) (cfg : Config) (jiraIssueKey : String)
    (fieldEntry : CustomFieldEntry) : Except String Unit × List Call :=
  let r1 :=
    if fieldEntry.customField.name = (impactedMapping cfg).incidentFieldName then
      processComponentField env cfg fieldEntry jiraIssueKey (impactedMapping cfg)
    else (Except.ok (), [])
  match r1.1 with
  | Except.error m => (Except.error m, r1.2)
  | Except.ok _ =>
    if fieldEntry.customField.name = (responsibleMapping cfg).incidentFieldName then
      let r2 := processComponentField env cfg fieldEntry jiraIssueKey (responsibleMapping cfg)
      (r2.1, r1.2 ++ r2.2)
    else (Except.ok (), r1.2)

/-- The entry loop of `processIncidentUpdate`: entries are visited in
order and the first failing mapped entry's error is returned immediately
(`return err`), leaving the remaining entries unvisited. -/
def processEntries (env : Env) (cfg : Config) (jiraIssueKey : String) :
    List CustomFieldEntry → Except String Unit × List Call
  | [] => (Except.ok (), [])
  | e :: rest =>
    let r := processFieldEntry env cfg jiraIssueKey e
    match r.1 with
    | Except.error m => (Except.error m, r.2)
    | Except.ok _ =>
      let w := processEntries env cfg jiraIssueKey rest
      (w.1, r.2 ++ w.2)

/-- Sub-object selection at the top of `processIncidentUpdate`. -/
def selectIncident (incidentData : IncidentData) : IncidentBody :=
  if incidentData.eventType = "public_incident.incident_updated_v2" then
    incidentData.publicIncidentUpdatedV2
  else incidentData.incident

/-- Mirrors `processIncidentUpdate`: select the sub-object, require a
non-empty linked-issue key, then run the entry loop. -/
def processIncidentUpdate (env : Env) (cfg : Config) (incidentData : IncidentData) :
    Except String Unit × List Call :=
  let incident := selectIncident incidentData
  let jiraIssueKey := incident.externalIssueReference.issueName
  if jiraIssueKey = "" then (Except.error "no Jira issue found for incident", [])
  else processEntries env cfg jiraIssueKey incident.customFieldEntries

/-- Observable outcomes of `webhookHandler`; `invalidJSON` covers the
body-read and JSON-decode failures (both HTTP 400). -/
inductive HandlerOutcome where
  | methodNotAllowed
  | invalidJSON
  | ignored
  | processingFailed
  | success
deriving DecidableEq

/-- HTTP status written for each handler outcome. -/
def statusOf : HandlerOutcome → Nat
  | HandlerOutcome.methodNotAllowed => 405
  | HandlerOutcome.invalidJSON => 400
  | HandlerOutcome.ignored => 200
  | HandlerOutcome.processingFailed => 500
  | HandlerOutcome.success => 200

/-- Mirrors `webhookHandler` after transport: non-POST is rejected, an
undecodable payload is a client error, unrecognized event types answer
success with the "ignored" marker and make no upstream call, and
recognized ones run `processIncidentUpdate`, mapping its error to a
server-error response. -/
def webhookHandler (env : Env) (cfg : Config) (method : String)
    (payload : Option IncidentData) : HandlerOutcome × List Call :=
  if method ≠ "POST" then (HandlerOutcome.methodNotAllowed, [])
  else
    match payload with
    | none => (HandlerOutcome.invalidJSON, [])
    | some p =>
      if p.eventType ≠ "incident.custom_field_updated" ∧
          p.eventType ≠ "public_incident.incident_updated_v2" then
        (HandlerOutcome.ignored, [])
      else
        let r := processIncidentUpdate env cfg p
        match r.1 with
        | Except.error _ => (HandlerOutcome.processingFailed, r.2)
        | Except.ok _ => (HandlerOutcome.success, r.2)

/-! Spec-side definitions, following the specification's wording, used to
state the claims against the embedded code. -/

/-- Spec wording: the string "ends in a hyphen followed by one or more
digits". -/
def specEndsWithHyphenDigits (l : List Char) : Prop :=
  ∃ p t, l = p ++ '-' :: t ∧ t ≠ [] ∧ t.all isDigitCh = true

/-- Spec wording: the "trailing digit run" of a string — the maximal
all-digit suffix (computed as the first position from which every
character is a digit). -/
def trailingDigitRun : List Char → List Char
  | [] => []
  | c :: rest =>
    if isDigitCh c = true ∧ rest.all isDigitCh = true then c :: rest
    else trailingDigitRun rest

/-- Spec wording: "the entire string is itself numeric" — a non-empty
string consisting of decimal digits. -/
def isNumericDigits (s : String) : Bool :=
  (!s.data.isEmpty) && s.data.all isDigitCh

/-! Concrete fixtures used by witnesses and counterexamples. -/

/-- Concrete configuration with workspace id "ws1" and the default field
names. -/
def cfgW : Config :=
  { jiraBaseURL := "https://jira.example"
    jiraUsername := "user@example.com"
    jiraAPIToken := "jt"
    incidentAPIToken := "it"
    webhookSecret := ""
    port := "5000"
    jiraWorkspaceID := "ws1"
    impactedComponentFieldName := "Impacted component"
    impactedComponentJiraFieldID := "customfield_1"
    responsibleComponentFieldName := "Responsible components"
    responsibleComponentJiraFieldID := "customfield_2" }

/-- Catalog response whose schema has an "Object Key" attribute `a1`
valued "PIN-3". -/
def goodResp : CatalogResponse :=
  { catalogEntry :=
      { id := "c1", name := "Component A", externalID := ""
        attributeValues := [("a1", { value := { literal := "PIN-3" } })] }
    catalogType := { schema := { attributes := [{ id := "a1", name := "Object Key" }] } } }

/-- Environment where every catalog lookup resolves via `goodResp` and
every Jira write is rejected with HTTP 400. -/
def envCat : Env :=
  { catalog := fun _ => CatalogFetchResult.response 200 (some goodResp)
    jira := fun _ _ _ => JiraPutResult.status 400 }

/-- Environment where multi-value writes fail with HTTP 400 but
single-value writes succeed with HTTP 204. -/
def envC1 : Env :=
  { catalog := fun _ => CatalogFetchResult.transportError "unreachable"
    jira := fun _ _ vs =>
      match vs with
      | _ :: _ :: _ => JiraPutResult.status 400
      | _ => JiraPutResult.status 204 }

/-- Environment where the catalog is unreachable and every write fails. -/
def env0 : Env :=
  { catalog := fun _ => CatalogFetchResult.transportError "unreachable"
    jira := fun _ _ _ => JiraPutResult.status 400 }

/-- Catalog response whose only "object key" attribute has the empty id,
with a value recorded under that empty id. -/
def c7resp : CatalogResponse :=
  { catalogEntry :=
      { id := "entry1", name := "E1", externalID := ""
        attributeValues := [("", { value := { literal := "PIN-7" } })] }
    catalogType := { schema := { attributes := [{ id := "", name := "Object Key" }] } } }

/-- Environment serving `c7resp` for every catalog lookup. -/
def envC7 : Env :=
  { catalog := fun _ => CatalogFetchResult.response 200 (some c7resp)
    jira := fun _ _ _ => JiraPutResult.status 204 }

/-- Formatted value "ws1:1". -/
def vA : JiraComponentValue := { id := "ws1:1", objectID := "1" }

/-- Formatted value "ws1:2". -/
def vB : JiraComponentValue := { id := "ws1:2", objectID := "2" }

/-- Custom-field value backed by catalog entry "c1". -/
def vc1 : Value := { valueCatalogEntry := some { id := "c1", name := "Component A", externalID := "" } }

/-- Custom-field value with no catalog entry. -/
def vNone : Value := { valueCatalogEntry := none }

/-- Entry named "Impacted component" holding `vc1`. -/
def eImp : CustomFieldEntry :=
  { customField := { id := "cf1", name := "Impacted component", description := "", fieldType := "multi_select" }
    values := [vc1] }

/-- Entry with a name matching no mapping. -/
def eOther : CustomFieldEntry :=
  { customField := { id := "cf9", name := "Severity", description := "", fieldType := "single_select" }
    values := [vc1] }

/-- Entry named "Impacted component" holding only a non-catalog value. -/
def eNone : CustomFieldEntry :=
  { customField := { id := "cf1", name := "Impacted component", description := "", fieldType := "multi_select" }
    values := [vNone] }

/-- Incident sub-object with no linked issue. -/
def bodyNoIssue : IncidentBody :=
  { id := "inc1", name := "Incident 1"
    externalIssueReference := { provider := "jira", issueName := "", issuePermalink := "" }
    customFieldEntries := [eImp] }

/-- Field-updated event whose incident has no linked issue. -/
def dNoIssue : IncidentData :=
  { incident := bodyNoIssue
    publicIncidentUpdatedV2 := bodyNoIssue
    eventType := "incident.custom_field_updated" }

/-- Event of an unrecognized kind. -/
def dIgnored : IncidentData :=
  { incident := bodyNoIssue
    publicIncidentUpdatedV2 := bodyNoIssue
    eventType := "incident.created" }

/-! Lemmas relating the embedded regexp search to the specification's
wording. -/

/-- An all-digit string contains no hyphen, so the regexp cannot match. -/
lemma allDigits_reFind_none : ∀ l : List Char, l.all isDigitCh = true →
    reFindHyphenDigits l = none := by
  intro l
  induction l with
  | nil => intro _; rfl
  | cons c rest ih =>
    intro h
    rw [List.all_cons, Bool.and_eq_true] at h
    show reFindHyphenDigits (c :: rest) = none
    simp only [reFindHyphenDigits]
    rw [if_neg, ih h.2]
    rintro ⟨hc, -, -⟩
    rw [hc] at h
    exact absurd h.1 (by decide)

/-- A non-empty all-digit list is its own trailing digit run. -/
lemma trailingDigitRun_of_all (t : List Char) (h1 : t ≠ []) (h2 : t.all isDigitCh = true) :
    trailingDigitRun t = t := by
  cases t with
  | nil => exact absurd rfl h1
  | cons c rest =>
    rw [List.all_cons, Bool.and_eq_true] at h2
    simp only [trailingDigitRun]
    rw [if_pos ⟨h2.1, h2.2⟩]

/-- A successful regexp search certifies the hyphen-digits suffix shape,
and its captured group is the maximal trailing digit run. -/
lemma reFind_some_spec : ∀ l g, reFindHyphenDigits l = some g →
    specEndsWithHyphenDigits l ∧ g = trailingDigitRun l := by
  intro l
  induction l with
  | nil => intro g h; exact Option.noConfusion h
  | cons c rest ih =>
    intro g h
    simp only [reFindHyphenDigits] at h
    by_cases hc : c = '-' ∧ rest ≠ [] ∧ rest.all isDigitCh = true
    · rw [if_pos hc] at h
      obtain ⟨hdash, hne, hall⟩ := hc
      have hg : rest = g := Option.some.inj h
      subst hg
      constructor
      · exact ⟨[], rest, by simp [hdash], hne, hall⟩
      · simp only [trailingDigitRun]
        rw [if_neg, trailingDigitRun_of_all rest hne hall]
        rintro ⟨hd, -⟩
        rw [hdash] at hd
        exact absurd hd (by decide)
    · rw [if_neg hc] at h
      obtain ⟨hspec, hg⟩ := ih g h
      constructor
      · obtain ⟨p, t, heq, hne, hall⟩ := hspec
        exact ⟨c :: p, t, by simp [heq], hne, hall⟩
      · simp only [trailingDigitRun]
        rw [if_neg]
        · exact hg
        rintro ⟨-, hall⟩
        rw [allDigits_reFind_none rest hall] at h
        exact Option.noConfusion h

/-- The hyphen-digits suffix shape guarantees the regexp matches. -/
lemma spec_reFind_some : ∀ l : List Char, specEndsWithHyphenDigits l →
    ∃ g, reFindHyphenDigits l = some g := by
  rintro l ⟨p, t, heq, hne, hall⟩
  subst heq
  induction p with
  | nil =>
    refine ⟨t, ?_⟩
    rw [List.nil_append]
    show (if ('-' : Char) = '-' ∧ t ≠ [] ∧ t.all isDigitCh = true then some t
          else reFindHyphenDigits t) = some t
    rw [if_pos ⟨rfl, hne, hall⟩]
  | cons c p ih =>
    obtain ⟨g, hg⟩ := ih
    by_cases hc : c = '-' ∧ (p ++ '-' :: t) ≠ [] ∧ (p ++ '-' :: t).all isDigitCh = true
    · refine ⟨p ++ '-' :: t, ?_⟩
      rw [List.cons_append]
      show (if c = '-' ∧ (p ++ '-' :: t) ≠ [] ∧ (p ++ '-' :: t).all isDigitCh = true
            then some (p ++ '-' :: t) else reFindHyphenDigits (p ++ '-' :: t))
          = some (p ++ '-' :: t)
      rw [if_pos hc]
    · refine ⟨g, ?_⟩
      rw [List.cons_append]
      show (if c = '-' ∧ (p ++ '-' :: t) ≠ [] ∧ (p ++ '-' :: t).all isDigitCh = true
            then some (p ++ '-' :: t) else reFindHyphenDigits (p ++ '-' :: t))
          = some g
      rw [if_neg hc]
      exact hg

/-- C2 counterexample: the string of twenty nines is entirely numeric and
has no hyphen-digits suffix, yet extraction fails, because the value
exceeds the signed 64-bit range of `strconv.Atoi`; the claim demands the
string be returned unchanged. -/
theorem extract_numeric_overflow_counterexample :
    isNumericDigits "99999999999999999999" = true ∧
    ¬ specEndsWithHyphenDigits "99999999999999999999".data ∧
    extractJiraObjectID "99999999999999999999" =
      Except.error "could not extract numeric ID from object key: 99999999999999999999" := by
  refine ⟨by decide, ?_, by rfl⟩
  intro hspec
  obtain ⟨g, hg⟩ := spec_reFind_some _ hspec
  rw [show reFindHyphenDigits "99999999999999999999".data = none from by decide] at hg
  exact Option.noConfusion hg

/-- C2 amended: extraction returns the trailing digit run when the string
ends in a hyphen followed by digits; otherwise returns the string
unchanged exactly when `strconv.Atoi` accepts it (optional sign, digits,
signed 64-bit range) — not whenever the string is numeric; otherwise
fails, and the empty string always fails.  The function is pure by
construction. -/
theorem extract_policy_amended (s : String) :
    (specEndsWithHyphenDigits s.data →
       extractJiraObjectID s = Except.ok (String.mk (trailingDigitRun s.data))) ∧
    (¬ specEndsWithHyphenDigits s.data → atoiAccepts s = true →
       extractJiraObjectID s = Except.ok s) ∧
    (¬ specEndsWithHyphenDigits s.data → atoiAccepts s = false →
       ∃ e, extractJiraObjectID s = Except.error e) ∧
    extractJiraObjectID "" = Except.error "empty object key" := by
  refine ⟨?_, ?_, ?_, rfl⟩
  · intro hspec
    obtain ⟨g, hg⟩ := spec_reFind_some _ hspec
    obtain ⟨-, hgr⟩ := reFind_some_spec _ _ hg
    have hne : s ≠ "" := by
      intro h0
      subst h0
      obtain ⟨p, t, heq, -, -⟩ := hspec
      exact absurd heq.symm (List.append_ne_nil_of_right_ne_nil p (List.cons_ne_nil _ _))
    unfold extractJiraObjectID
    rw [if_neg hne, hg, hgr]
  · intro hspec hat
    have hne : s ≠ "" := by
      intro h0
      subst h0
      exact absurd hat (by decide)
    have hnone : reFindHyphenDigits s.data = none := by
      cases h : reFindHyphenDigits s.data with
      | none => rfl
      | some g => exact absurd (reFind_some_spec _ _ h).1 hspec
    unfold extractJiraObjectID
    rw [if_neg hne, hnone, if_pos hat]
  · intro hspec hat
    by_cases hne : s = ""
    · subst hne
      exact ⟨"empty object key", rfl⟩
    have hnone : reFindHyphenDigits s.data = none := by
      cases h : reFindHyphenDigits s.data with
      | none => rfl
      | some g => exact absurd (reFind_some_spec _ _ h).1 hspec
    have hat' : ¬ atoiAccepts s = true := by
      rw [hat]
      exact Bool.false_ne_true
    refine ⟨"could not extract numeric ID from object key: " ++ s, ?_⟩
    unfold extractJiraObjectID
    rw [if_neg hne, hnone, if_neg hat']

/-- Witness for the amended C2 policy at concrete inputs. -/
theorem extract_policy_amended_witness :
    extractJiraObjectID "SUP-2024-10" = Except.ok "10" ∧
    extractJiraObjectID "42" = Except.ok "42" := by
  constructor
  · have h := (extract_policy_amended "SUP-2024-10").1
      ⟨['S', 'U', 'P', '-', '2', '0', '2', '4'], ['1', '0'], by decide, by decide, by decide⟩
    exact h.trans rfl
  · refine (extract_policy_amended "42").2.1 ?_ rfl
    intro hspec
    obtain ⟨g, hg⟩ := spec_reFind_some _ hspec
    rw [show reFindHyphenDigits "42".data = none from by decide] at hg
    exact Option.noConfusion hg

/-- C8: formatting is deterministic string composition — primary
reference `workspaceId ++ ":" ++ numericId`, secondary reference the
numeric id verbatim — independent of the (unused) catalog-entry id and
with no validation of the workspace id; concretely
`format("ws1", "3") = {reference "ws1:3", objectReference "3"}`. -/
theorem format_component_value_spec (cfg : Config) (objectID catalogEntryID : String) :
    formatJiraComponentValue cfg objectID catalogEntryID
      = { id := cfg.jiraWorkspaceID ++ ":" ++ objectID, objectID := objectID } ∧
    (∀ other : String, formatJiraComponentValue cfg objectID catalogEntryID
      = formatJiraComponentValue cfg objectID other) ∧
    formatJiraComponentValue cfgW "3" "c1" = { id := "ws1:3", objectID := "3" } :=
  ⟨rfl, fun _ => rfl, rfl⟩

/-! Trace bookkeeping lemmas. -/

/-- The catalog resolver performs exactly one catalog call. -/
lemma getCatalog_trace (env : Env) (catalogEntryID : String) :
    (getCatalogEntryObjectKey env catalogEntryID).2 = [Call.catalogGet catalogEntryID] := rfl

/-- The field updater performs exactly one write call. -/
lemma update_trace (env : Env) (key fid : String) (vs : List JiraComponentValue) :
    (updateJiraCustomField env key fid vs).2 = [Call.jiraPut key fid vs] := rfl

/-- Resolving one value performs no write call. -/
lemma resolveOneValue_countP (env : Env) (cfg : Config) (v : Value) :
    (resolveOneValue env cfg v).2.countP isJiraPut = 0 := by
  obtain ⟨vce⟩ := v
  cases vce with
  | none => rfl
  | some ce =>
    simp only [resolveOneValue]
    by_cases hid : ce.id = ""
    · rw [if_pos hid]
      rfl
    · rw [if_neg hid]
      cases hk : (getCatalogEntryObjectKey env ce.id).1 with
      | error e => simp [getCatalog_trace, hk, isJiraPut]
      | ok k =>
        cases he : extractJiraObjectID k with
        | error e => simp [getCatalog_trace, hk, he, isJiraPut]
        | ok n => simp [getCatalog_trace, hk, he, isJiraPut]

/-- The value-resolution loop performs no write call. -/
lemma collectJiraValues_countP (env : Env) (cfg : Config) :
    ∀ vs : List Value, (collectJiraValues env cfg vs).2.countP isJiraPut = 0 := by
  intro vs
  induction vs with
  | nil => rfl
  | cons v rest ih =>
    show ((resolveOneValue env cfg v).2 ++ (collectJiraValues env cfg rest).2).countP isJiraPut = 0
    rw [List.countP_append, resolveOneValue_countP, ih]

/-- The write stage performs at most two write calls. -/
lemma writeWithFallback_countP (env : Env) (key fid : String) :
    ∀ vs : List JiraComponentValue,
      (writeWithFallback env key fid vs).2.countP isJiraPut ≤ 2 := by
  intro vs
  cases vs with
  | nil => simp [writeWithFallback]
  | cons v0 restVs =>
    simp only [writeWithFallback]
    cases h1 : (updateJiraCustomField env key fid (v0 :: restVs)).1 with
    | error e =>
      cases restVs with
      | nil => simp [h1, update_trace, isJiraPut]
      | cons b bs => simp [h1, update_trace, isJiraPut]
    | ok u =>
      cases restVs with
      | nil => simp [h1, update_trace, isJiraPut]
      | cons b bs => simp [h1, update_trace, isJiraPut]

/-- Processing one field performs at most two write calls in total. -/
lemma processComponentField_countP (env : Env) (cfg : Config) (e : CustomFieldEntry)
    (key : String) (fm : FieldMapping) :
    (processComponentField env cfg e key fm).2.countP isJiraPut ≤ 2 := by
  show ((collectJiraValues env cfg e.values).2
      ++ (writeWithFallback env key fm.jiraFieldID (collectJiraValues env cfg e.values).1).2).countP
        isJiraPut ≤ 2
  rw [List.countP_append, collectJiraValues_countP]
  simpa using writeWithFallback_countP env key fm.jiraFieldID _

/-- C1: for a non-empty batch, a failing multi-value write with more than
one value is followed by exactly one retry carrying only the first value,
whose outcome is final; a failing single-value write is final with no
retry; and at most two write attempts occur for a field. -/
theorem fallback_retry_policy (env : Env) (jiraIssueKey fieldID : String)
    (v0 : JiraComponentValue) (restVs : List JiraComponentValue) :
    (∀ m, restVs ≠ [] →
       (updateJiraCustomField env jiraIssueKey fieldID (v0 :: restVs)).1 = Except.error m →
       writeWithFallback env jiraIssueKey fieldID (v0 :: restVs)
         = ((updateJiraCustomField env jiraIssueKey fieldID [v0]).1,
            [Call.jiraPut jiraIssueKey fieldID (v0 :: restVs),
             Call.jiraPut jiraIssueKey fieldID [v0]])) ∧
    ((updateJiraCustomField env jiraIssueKey fieldID (v0 :: restVs)).1 = Except.ok () →
       writeWithFallback env jiraIssueKey fieldID (v0 :: restVs)
         = (Except.ok (), [Call.jiraPut jiraIssueKey fieldID (v0 :: restVs)])) ∧
    (∀ m, (updateJiraCustomField env jiraIssueKey fieldID [v0]).1 = Except.error m →
       writeWithFallback env jiraIssueKey fieldID [v0]
         = (Except.error m, [Call.jiraPut jiraIssueKey fieldID [v0]])) ∧
    (writeWithFallback env jiraIssueKey fieldID (v0 :: restVs)).2.countP isJiraPut ≤ 2 ∧
    (∀ (cfg : Config) (e : CustomFieldEntry) (fm : FieldMapping) (key : String),
       (processComponentField env cfg e key fm).2.countP isJiraPut ≤ 2) := by
  refine ⟨?_, ?_, ?_, writeWithFallback_countP env jiraIssueKey fieldID _,
    fun cfg e fm key => processComponentField_countP env cfg e key fm⟩
  · intro m hne h1
    cases restVs with
    | nil => exact absurd rfl hne
    | cons b bs =>
      simp only [writeWithFallback]
      rw [h1]
      rfl
  · intro h1
    cases restVs with
    | nil =>
      simp only [writeWithFallback]
      rw [h1]
      rfl
    | cons b bs =>
      simp only [writeWithFallback]
      rw [h1]
      rfl
  · intro m h1
    simp only [writeWithFallback]
    rw [h1]
    rfl

/-- Witness for C1: in an environment rejecting multi-value writes and
accepting single-value writes, the two-value batch ends in success after
exactly the batch write and the singleton-of-first retry. -/
theorem fallback_retry_policy_witness :
    writeWithFallback envC1 "PIN-7" "customfield_1" [vA, vB]
      = (Except.ok (), [Call.jiraPut "PIN-7" "customfield_1" [vA, vB],
                        Call.jiraPut "PIN-7" "customfield_1" [vA]]) := by
  have h := (fallback_retry_policy envC1 "PIN-7" "customfield_1" vA [vB]).1
    "Jira API request failed with status: 400" (List.cons_ne_nil _ _) rfl
  exact h.trans rfl

/-- The attribute scan returns the id of the first case-insensitive
"object key" attribute found by `List.find?`, or `""` when none exists. -/
lemma findObjectKeyAttrID_eq (attrs : List SchemaAttribute) :
    findObjectKeyAttrID attrs
      = (match attrs.find? (fun x => lowerStr x.name == "object key") with
         | some a => a.id
         | none => "") := by
  induction attrs with
  | nil => rfl
  | cons a rest ih =>
    by_cases h : lowerStr a.name = "object key"
    · simp only [findObjectKeyAttrID]
      rw [if_pos h, List.find?_cons_of_pos _ (by simpa using h)]
    · simp only [findObjectKeyAttrID]
      rw [if_neg h, List.find?_cons_of_neg _ (by simpa using h), ih]

/-- C7 counterexample: a decoded 200 response whose first (and only)
case-insensitive "object key" schema attribute has the empty id, with a
value recorded under that id; the claim's "exactly when" demands success
with the stored literal, but the code's `objectKeyAttrID != ""` guard
treats the match as not found and fails. -/
theorem catalog_empty_attr_id_counterexample :
    (c7resp.catalogType.schema.attributes.find?
        (fun x => lowerStr x.name == "object key")
      = some { id := "", name := "Object Key" }) ∧
    (c7resp.catalogEntry.attributeValues.lookup ""
      = some { value := { literal := "PIN-7" } }) ∧
    envC7.catalog "entry1" = CatalogFetchResult.response 200 (some c7resp) ∧
    (getCatalogEntryObjectKey envC7 "entry1").1
      = Except.error "no object key found for catalog entry entry1" :=
  ⟨rfl, rfl, rfl, rfl⟩

/-- C7 amended: exactly one catalog call is made per resolution, with no
retry; transport errors and non-200 statuses fail; and on a decoded 200
response, resolution succeeds with the stored literal exactly when the
first schema attribute whose name case-insensitively equals "object key"
exists, has a NON-EMPTY id, and the entry records a value under that id. -/
theorem catalog_resolution_amended (env : Env) (catalogEntryID : String) :
    (getCatalogEntryObjectKey env catalogEntryID).2 = [Call.catalogGet catalogEntryID] ∧
    (∀ m, env.catalog catalogEntryID = CatalogFetchResult.transportError m →
       (getCatalogEntryObjectKey env catalogEntryID).1
         = Except.error ("failed to fetch catalog entry: " ++ m)) ∧
    (∀ st body, env.catalog catalogEntryID = CatalogFetchResult.response st body → st ≠ 200 →
       (getCatalogEntryObjectKey env catalogEntryID).1
         = Except.error ("API request failed with status: " ++ toString st)) ∧
    (∀ resp, env.catalog catalogEntryID = CatalogFetchResult.response 200 (some resp) →
       ∀ k, ((getCatalogEntryObjectKey env catalogEntryID).1 = Except.ok k ↔
         ∃ a, resp.catalogType.schema.attributes.find?
               (fun x => lowerStr x.name == "object key") = some a
           ∧ a.id ≠ ""
           ∧ ∃ av, resp.catalogEntry.attributeValues.lookup a.id = some av
           ∧ k = av.value.literal)) := by
  refine ⟨rfl, ?_, ?_, ?_⟩
  · intro m hm
    simp only [getCatalogEntryObjectKey, hm]
  · intro st body hm hst
    simp only [getCatalogEntryObjectKey, hm]
    rw [if_pos hst]
  · intro resp hm k
    simp only [getCatalogEntryObjectKey, hm]
    rw [if_neg (fun h => h rfl), findObjectKeyAttrID_eq]
    cases hfind : resp.catalogType.schema.attributes.find?
        (fun x => lowerStr x.name == "object key") with
    | none =>
      rw [if_neg (fun h => h rfl)]
      constructor
      · intro h
        exact Except.noConfusion h
      · rintro ⟨a, ha, -⟩
        exact Option.noConfusion ha
    | some a =>
      dsimp only
      by_cases hid : a.id = ""
      · rw [hid, if_neg (fun h => h rfl)]
        constructor
        · intro h
          exact Except.noConfusion h
        · rintro ⟨a', ha', hid', -⟩
          rw [← Option.some.inj ha'] at hid'
          exact absurd hid hid'
      · rw [if_pos hid]
        cases hlk : resp.catalogEntry.attributeValues.lookup a.id with
        | none =>
          constructor
          · intro h
            exact Except.noConfusion h
          · rintro ⟨a', ha', -, av', hlk', -⟩
            rw [← Option.some.inj ha'] at hlk'
            rw [hlk'] at hlk
            exact Option.noConfusion hlk
        | some av =>
          constructor
          · intro h
            exact ⟨a, rfl, hid, av, hlk, (Except.ok.inj h).symm⟩
          · rintro ⟨a', ha', -, av', hlk', hk⟩
            rw [← Option.some.inj ha'] at hlk'
            rw [hlk'] at hlk
            show Except.ok av.value.literal = Except.ok k
            rw [hk, Option.some.inj hlk]

/-- Witness for the amended C7 at a concrete successful resolution. -/
theorem catalog_resolution_amended_witness :
    (getCatalogEntryObjectKey envCat "c1").1 = Except.ok "PIN-3" := by
  have h := (catalog_resolution_amended envCat "c1").2.2.2 goodResp rfl "PIN-3"
  exact h.mpr ⟨{ id := "a1", name := "Object Key" }, rfl, by decide,
    { value := { literal := "PIN-3" } }, rfl, rfl⟩

/-- A value contributes to the batch only via the full success chain:
catalog-backed with non-empty id, object key resolved, numeric id
extracted, then formatted. -/
lemma resolveOneValue_some (env : Env) (cfg : Config) (v : Value) (jv : JiraComponentValue)
    (h : (resolveOneValue env cfg v).1 = some jv) :
    ∃ ce, v.valueCatalogEntry = some ce ∧ ce.id ≠ ""
      ∧ ∃ k, (getCatalogEntryObjectKey env ce.id).1 = Except.ok k
      ∧ ∃ n, extractJiraObjectID k = Except.ok n
      ∧ jv = formatJiraComponentValue cfg n ce.id := by
  obtain ⟨vce⟩ := v
  cases vce with
  | none => exact Option.noConfusion h
  | some ce =>
    simp only [resolveOneValue] at h
    by_cases hid : ce.id = ""
    · rw [if_pos hid] at h
      exact Option.noConfusion h
    · rw [if_neg hid] at h
      cases hk : (getCatalogEntryObjectKey env ce.id).1 with
      | error e =>
        rw [hk] at h
        exact Option.noConfusion h
      | ok k =>
        simp only [hk] at h
        cases he : extractJiraObjectID k with
        | error e =>
          simp only [he] at h
          exact Option.noConfusion h
        | ok n =>
          simp only [he] at h
          exact ⟨ce, rfl, hid, k, hk, n, he, (Option.some.inj h).symm⟩

/-- The collected batch is the filter-map of per-value resolution over
the submitted values, in order. -/
lemma collectJiraValues_fst (env : Env) (cfg : Config) :
    ∀ vs : List Value, (collectJiraValues env cfg vs).1
      = vs.filterMap (fun v => (resolveOneValue env cfg v).1) := by
  intro vs
  induction vs with
  | nil => rfl
  | cons v rest ih =>
    show (match (resolveOneValue env cfg v).1 with
          | some jv => jv :: (collectJiraValues env cfg rest).1
          | none => (collectJiraValues env cfg rest).1)
        = (v :: rest).filterMap (fun v => (resolveOneValue env cfg v).1)
    rw [List.filterMap_cons]
    cases h : (resolveOneValue env cfg v).1 with
    | none => rw [ih]
    | some jv => rw [ih]

/-- C4: every value placed in a field's write batch arises from a value
whose catalog resolution and numeric extraction both succeeded, the batch
is exactly the order-preserving filter-map of per-value resolution, and a
value that resolves to nothing never affects the batch contributed by its
siblings. -/
theorem batch_values_resolved_invariant (env : Env) (cfg : Config) (values : List Value) :
    ((collectJiraValues env cfg values).1
      = values.filterMap (fun v => (resolveOneValue env cfg v).1)) ∧
    (∀ jv ∈ (collectJiraValues env cfg values).1, ∃ v ∈ values,
       ∃ ce, v.valueCatalogEntry = some ce ∧ ce.id ≠ ""
         ∧ ∃ k, (getCatalogEntryObjectKey env ce.id).1 = Except.ok k
         ∧ ∃ n, extractJiraObjectID k = Except.ok n
         ∧ jv = formatJiraComponentValue cfg n ce.id) ∧
    (∀ v, (resolveOneValue env cfg v).1 = none →
       (collectJiraValues env cfg (v :: values)).1 = (collectJiraValues env cfg values).1) := by
  refine ⟨collectJiraValues_fst env cfg values, ?_, ?_⟩
  · intro jv hjv
    rw [collectJiraValues_fst] at hjv
    obtain ⟨v, hv, hres⟩ := List.mem_filterMap.mp hjv
    obtain ⟨ce, h1, h2, k, h3, n, h4, h5⟩ := resolveOneValue_some env cfg v jv hres
    exact ⟨v, hv, ce, h1, h2, k, h3, n, h4, h5⟩
  · intro v hnone
    show (match (resolveOneValue env cfg v).1 with
          | some jv => jv :: (collectJiraValues env cfg values).1
          | none => (collectJiraValues env cfg values).1)
        = (collectJiraValues env cfg values).1
    rw [hnone]

/-- Witness for C4: the concrete batch element "ws1:3" traces back to the
catalog-backed value `vc1` through a successful resolution chain. -/
theorem batch_values_resolved_invariant_witness :
    ∃ v ∈ [vc1],
      ∃ ce, v.valueCatalogEntry = some ce ∧ ce.id ≠ ""
        ∧ ∃ k, (getCatalogEntryObjectKey envCat ce.id).1 = Except.ok k
        ∧ ∃ n, extractJiraObjectID k = Except.ok n
        ∧ ({ id := "ws1:3", objectID := "3" } : JiraComponentValue)
            = formatJiraComponentValue cfgW n ce.id :=
  (batch_values_resolved_invariant envCat cfgW [vc1]).2.1
    { id := "ws1:3", objectID := "3" } (by decide)

/-- C9: a mapped field whose resolved value list is empty performs no
issue-update call and its processing result is success. -/
theorem empty_batch_skips_update (env : Env) (cfg : Config) (e : CustomFieldEntry)
    (jiraIssueKey : String) (fm : FieldMapping)
    (h : (collectJiraValues env cfg e.values).1 = []) :
    processComponentField env cfg e jiraIssueKey fm
      = (Except.ok (), (collectJiraValues env cfg e.values).2) ∧
    (processComponentField env cfg e jiraIssueKey fm).2.countP isJiraPut = 0 := by
  have hpcf : processComponentField env cfg e jiraIssueKey fm
      = (Except.ok (), (collectJiraValues env cfg e.values).2) := by
    show ((writeWithFallback env jiraIssueKey fm.jiraFieldID
            (collectJiraValues env cfg e.values).1).1,
          (collectJiraValues env cfg e.values).2
            ++ (writeWithFallback env jiraIssueKey fm.jiraFieldID
                  (collectJiraValues env cfg e.values).1).2)
        = (Except.ok (), (collectJiraValues env cfg e.values).2)
    rw [h]
    simp [writeWithFallback]
  refine ⟨hpcf, ?_⟩
  rw [hpcf]
  exact collectJiraValues_countP env cfg e.values

/-- Witness for C9 at a field whose only value is non-catalog-backed. -/
theorem empty_batch_skips_update_witness :
    processComponentField env0 cfgW eNone "PIN-7" (impactedMapping cfgW)
      = (Except.ok (), []) ∧
    (processComponentField env0 cfgW eNone "PIN-7" (impactedMapping cfgW)).2.countP isJiraPut
      = 0 := by
  have h := empty_batch_skips_update env0 cfgW eNone "PIN-7" (impactedMapping cfgW) rfl
  exact ⟨h.1.trans rfl, h.2⟩

/-- C10: a value with no catalog-entry reference, or whose reference has
an empty id, is skipped with no upstream call, contributes nothing, and
does not disturb the processing of the remaining values. -/
theorem non_catalog_values_skipped (env : Env) (cfg : Config) (v : Value) (rest : List Value)
    (h : v.valueCatalogEntry = none ∨ ∃ ce, v.valueCatalogEntry = some ce ∧ ce.id = "") :
    resolveOneValue env cfg v = (none, []) ∧
    collectJiraValues env cfg (v :: rest) = collectJiraValues env cfg rest := by
  have hr : resolveOneValue env cfg v = (none, []) := by
    obtain ⟨vce⟩ := v
    cases vce with
    | none => rfl
    | some ce =>
      have hid : ce.id = "" := by
        cases h with
        | inl h0 => exact Option.noConfusion h0
        | inr h0 =>
          obtain ⟨ce', h1, h2⟩ := h0
          rw [← Option.some.inj h1] at h2
          exact h2
      simp only [resolveOneValue]
      rw [if_pos hid]
  refine ⟨hr, ?_⟩
  show ((match (resolveOneValue env cfg v).1 with
         | some jv => jv :: (collectJiraValues env cfg rest).1
         | none => (collectJiraValues env cfg rest).1),
        (resolveOneValue env cfg v).2 ++ (collectJiraValues env cfg rest).2)
      = collectJiraValues env cfg rest
  rw [hr]
  exact rfl

/-- Witness for C10 at a value with no catalog entry. -/
theorem non_catalog_values_skipped_witness :
    resolveOneValue env0 cfgW vNone = (none, []) ∧
    collectJiraValues env0 cfgW [vNone, vc1] = collectJiraValues env0 cfgW [vc1] :=
  non_catalog_values_skipped env0 cfgW vNone [vc1] (Or.inl rfl)

/-- C3: entries are processed in event order — a successful mapped entry
contributes its calls before the rest's — and the first failing mapped
entry's error is the event's result, with the trace ending at that entry:
no later entry is examined, resolved, or written. -/
theorem abort_on_field_failure (env : Env) (cfg : Config) (jiraIssueKey : String)
    (pre post : List CustomFieldEntry) (e : CustomFieldEntry)
    (hpre : ∀ x ∈ pre, (processFieldEntry env cfg jiraIssueKey x).1 = Except.ok ())
    (m : String)
    (hfail : (processFieldEntry env cfg jiraIssueKey e).1 = Except.error m) :
    (processEntries env cfg jiraIssueKey (pre ++ e :: post)
      = (Except.error m,
         (pre.map (fun x => (processFieldEntry env cfg jiraIssueKey x).2)).flatten
           ++ (processFieldEntry env cfg jiraIssueKey e).2)) ∧
    (∀ (x : CustomFieldEntry) (rest : List CustomFieldEntry),
       (processFieldEntry env cfg jiraIssueKey x).1 = Except.ok () →
       processEntries env cfg jiraIssueKey (x :: rest)
         = ((processEntries env cfg jiraIssueKey rest).1,
            (processFieldEntry env cfg jiraIssueKey x).2
              ++ (processEntries env cfg jiraIssueKey rest).2)) := by
  constructor
  · induction pre with
    | nil =>
      show (match (processFieldEntry env cfg jiraIssueKey e).1 with
            | Except.error m' => (Except.error m', (processFieldEntry env cfg jiraIssueKey e).2)
            | Except.ok _ => ((processEntries env cfg jiraIssueKey post).1,
                (processFieldEntry env cfg jiraIssueKey e).2
                  ++ (processEntries env cfg jiraIssueKey post).2))
          = _
      rw [hfail]
      exact rfl
    | cons x pre ih =>
      have hx : (processFieldEntry env cfg jiraIssueKey x).1 = Except.ok () :=
        hpre x (List.mem_cons_self x pre)
      have hpre' : ∀ y ∈ pre, (processFieldEntry env cfg jiraIssueKey y).1 = Except.ok () :=
        fun y hy => hpre y (List.mem_cons_of_mem x hy)
      show (match (processFieldEntry env cfg jiraIssueKey x).1 with
            | Except.error m' => (Except.error m', (processFieldEntry env cfg jiraIssueKey x).2)
            | Except.ok _ =>
                ((processEntries env cfg jiraIssueKey (pre ++ e :: post)).1,
                 (processFieldEntry env cfg jiraIssueKey x).2
                   ++ (processEntries env cfg jiraIssueKey (pre ++ e :: post)).2))
          = _
      rw [hx, ih hpre']
      simp [List.append_assoc]
  · intro x rest hx
    show (match (processFieldEntry env cfg jiraIssueKey x).1 with
          | Except.error m' => (Except.error m', (processFieldEntry env cfg jiraIssueKey x).2)
          | Except.ok _ => ((processEntries env cfg jiraIssueKey rest).1,
              (processFieldEntry env cfg jiraIssueKey x).2
                ++ (processEntries env cfg jiraIssueKey rest).2))
        = _
    rw [hx]

/-- Witness for C3: with the write rejected, the first mapped entry's
failure is final and the second entry is never touched — the trace holds
only the first entry's catalog call and single write. -/
theorem abort_on_field_failure_witness :
    processEntries envCat cfgW "PIN-7" [eImp, eOther]
      = (Except.error "Jira API request failed with status: 400",
         [Call.catalogGet "c1",
          Call.jiraPut "PIN-7" "customfield_1" [{ id := "ws1:3", objectID := "3" }]]) := by
  have h := (abort_on_field_failure envCat cfgW "PIN-7" [] [eOther] eImp
    (fun x hx => absurd hx (List.not_mem_nil x))
    "Jira API request failed with status: 400" rfl).1
  exact h.trans rfl

/-- C5: a recognized event whose selected sub-object has an empty
linked-issue key fails with the no-linked-issue error before any upstream
call, and the HTTP response is the server-error processing failure. -/
theorem missing_linked_issue_fails_early (env : Env) (cfg : Config) (d : IncidentData)
    (hrec : d.eventType = "incident.custom_field_updated"
      ∨ d.eventType = "public_incident.incident_updated_v2")
    (hkey : (selectIncident d).externalIssueReference.issueName = "") :
    processIncidentUpdate env cfg d = (Except.error "no Jira issue found for incident", []) ∧
    webhookHandler env cfg "POST" (some d) = (HandlerOutcome.processingFailed, []) ∧
    statusOf HandlerOutcome.processingFailed = 500 := by
  have hp : processIncidentUpdate env cfg d
      = (Except.error "no Jira issue found for incident", []) := by
    simp only [processIncidentUpdate]
    rw [if_pos hkey]
  refine ⟨hp, ?_, rfl⟩
  simp only [webhookHandler, hp]
  rw [if_neg (fun h => h rfl),
    if_neg (fun hc => hrec.elim (fun h1 => hc.1 h1) (fun h2 => hc.2 h2))]

/-- Witness for C5 at a concrete field-updated event lacking a linked
issue. -/
theorem missing_linked_issue_fails_early_witness :
    processIncidentUpdate env0 cfgW dNoIssue
      = (Except.error "no Jira issue found for incident", []) ∧
    webhookHandler env0 cfgW "POST" (some dNoIssue) = (HandlerOutcome.processingFailed, []) ∧
    statusOf HandlerOutcome.processingFailed = 500 :=
  missing_linked_issue_fails_early env0 cfgW dNoIssue (Or.inl rfl) rfl

/-- C6: the v2 discriminator selects the variant sub-object, the
field-updated discriminator selects the default one, any other
discriminator answers HTTP 200 with the "ignored" marker and zero
upstream calls, and exactly the two recognized discriminators run
incident processing, whose outcome determines the response. -/
theorem event_kind_dispatch (env : Env) (cfg : Config) (d : IncidentData) :
    (d.eventType = "public_incident.incident_updated_v2" →
       selectIncident d = d.publicIncidentUpdatedV2) ∧
    (d.eventType = "incident.custom_field_updated" → selectIncident d = d.incident) ∧
    (d.eventType ≠ "incident.custom_field_updated" →
       d.eventType ≠ "public_incident.incident_updated_v2" →
       webhookHandler env cfg "POST" (some d) = (HandlerOutcome.ignored, [])
         ∧ statusOf HandlerOutcome.ignored = 200) ∧
    (d.eventType = "incident.custom_field_updated"
       ∨ d.eventType = "public_incident.incident_updated_v2" →
       webhookHandler env cfg "POST" (some d)
         = ((match (processIncidentUpdate env cfg d).1 with
             | Except.error _ => HandlerOutcome.processingFailed
             | Except.ok _ => HandlerOutcome.success),
            (processIncidentUpdate env cfg d).2)) := by
  refine ⟨?_, ?_, ?_, ?_⟩
  · intro hv
    simp only [selectIncident]
    rw [if_pos hv]
  · intro hc
    simp only [selectIncident, hc]
    rw [if_neg (by decide)]
  · intro h1 h2
    refine ⟨?_, rfl⟩
    simp only [webhookHandler]
    rw [if_neg (fun h => h rfl), if_pos ⟨h1, h2⟩]
  · intro hrec
    simp only [webhookHandler]
    rw [if_neg (fun h => h rfl),
      if_neg (fun hc => hrec.elim (fun h1 => hc.1 h1) (fun h2 => hc.2 h2))]
    cases hres : (processIncidentUpdate env cfg d).1 with
    | error e => rfl
    | ok u => rfl

/-- Witness for C6: the unrecognized kind "incident.created" is answered
ignored with no upstream calls. -/
theorem event_kind_dispatch_witness :
    webhookHandler env0 cfgW "POST" (some dIgnored) = (HandlerOutcome.ignored, [])
      ∧ statusOf HandlerOutcome.ignored = 200 :=
  (event_kind_dispatch env0 cfgW dIgnored).2.2.1 (by decide) (by decide)

end IncidentJiraWebhook
